import Mathlib

/-!
Shallow embedding of the on-chain ICO token sale program
(src/programs/solana-ico/src/lib.rs, Anchor program `ico_token_sale`).

Modelling conventions:

* `u64` values are `Nat`; `i64` clock values are `Int`.  `U64_MAX` and the
  i64 bounds are explicit.
* The sources `checked_mul` / `checked_div` are `Option`-returning, exactly
  as in Rust; `.ok_or(ErrorCode::MathOverflow)` lifts them into the error
  monad.
* Unchecked arithmetic (`+`, `*`, `u64::pow`, i64 `+`) follows the standard
  Anchor workspace release profile, which enables overflow checks for the
  on-chain build (the build manifest is outside src/); an overflowing
  unchecked operation therefore aborts the instruction.  This is modelled
  as the distinguished error `ProgErr.overflowAbort`, different from every
  `ErrorCode`.
* Account-identifier fields (`authority`, `token_mint`, `treasury`,
  `pyth_price_update`, `bump`, the `user`/`sale` back-references of
  `UserPurchase`) and the runtime account-binding constraints of the
  `#[derive(Accounts)]` contexts are enforced by the host runtime and play
  no role in the arithmetic or lifecycle logic verified here, so they are
  omitted from the records.
* The Pyth SDK call `get_price_no_older_than` (feed-id resolution and the
  staleness bound) happens before the normalization arithmetic of
  `get_sol_usd_price`; an SDK failure aborts the instruction before any
  state change.  The model starts from a successfully fetched
  (price, exponent) pair, which only adds behaviours relative to the chain.
* CPI transfers (system transfer of `sol_cost` lamports, SPL transfer of
  `token_amount` / vault balance) are external effects; the model records
  the transferred amounts.  A failing instruction rolls back every account
  write, so in the trace semantics a failed instruction leaves the state
  unchanged.
-/

namespace IcoTokenSale

def U64_MAX : Nat := 2 ^ 64 - 1

def I64_MAX : Int := 2 ^ 63 - 1

def I64_MIN : Int := -(2 ^ 63)

/-- The `#[error_code]` enum of the program, in source order. -/
inductive ErrorCode where
  | Unauthorized
  | InvalidPrice
  | InvalidAmount
  | InvalidPurchaseLimit
  | InvalidDuration
  | InvalidMaxAge
  | SaleInactive
  | SalePaused
  | SaleNotActive
  | BelowMinimumPurchase
  | ExceedsMaximumPurchase
  | ExceedsMaxTokens
  | ExceedsUserLimit
  | MathOverflow
  | SaleStillActive
  | SaleAlreadyStarted
  | InvalidTokenMint
  | InvalidPriceUpdate
  | InvalidPriceData
  deriving DecidableEq, Repr

/-- Outcome of a failed instruction: either a program `ErrorCode` or an
abort coming from checked unchecked-arithmetic overflow (Rust panic under
the overflow-checking build profile). -/
inductive ProgErr where
  | code : ErrorCode → ProgErr
  | overflowAbort : ProgErr
  deriving DecidableEq, Repr

/-- Rust `u64::checked_mul`. -/
def checked_mul (a b : Nat) : Option Nat :=
  if a * b ≤ U64_MAX then some (a * b) else none

/-- Rust `u64::checked_div`: `none` exactly on a zero divisor. -/
def checked_div (a b : Nat) : Option Nat :=
  if b = 0 then none else some (a / b)

/-- Rust `Option::ok_or(ErrorCode::e)?`. -/
def ok_or (o : Option Nat) (e : ErrorCode) : Except ProgErr Nat :=
  match o with
  | some v => .ok v
  | none => .error (.code e)

/-- Unchecked u64 addition: aborts the instruction on overflow. -/
def u64_add (a b : Nat) : Except ProgErr Nat :=
  if a + b ≤ U64_MAX then .ok (a + b) else .error .overflowAbort

/-- Unchecked u64 multiplication: aborts the instruction on overflow. -/
def u64_mul (a b : Nat) : Except ProgErr Nat :=
  if a * b ≤ U64_MAX then .ok (a * b) else .error .overflowAbort

/-- Unchecked `u64::pow`: aborts the instruction on overflow. -/
def u64_pow (a k : Nat) : Except ProgErr Nat :=
  if a ^ k ≤ U64_MAX then .ok (a ^ k) else .error .overflowAbort

/-- Unchecked i64 addition: aborts the instruction on overflow. -/
def i64_add (a b : Int) : Except ProgErr Int :=
  if I64_MIN ≤ a + b ∧ a + b ≤ I64_MAX then .ok (a + b) else .error .overflowAbort

/-- The `require!(cond, ErrorCode::e)` macro. -/
def require (c : Prop) [Decidable c] (e : ErrorCode) : Except ProgErr Unit :=
  if c then .ok () else .error (.code e)

/-- The numeric and lifecycle fields of the `Sale` account (`u64` counters
as `Nat`, `i64` timestamps as `Int`). -/
structure Sale where
  token_price_usd : Nat
  max_tokens : Nat
  min_purchase : Nat
  max_purchase : Nat
  tokens_sold : Nat
  total_raised : Nat
  start_time : Int
  end_time : Int
  max_price_age : Nat
  is_active : Bool
  is_paused : Bool
  deriving DecidableEq, Repr

/-- The per-buyer `UserPurchase` account (counters only). -/
structure UserPurchase where
  tokens_purchased : Nat
  sol_contributed : Nat
  deriving DecidableEq, Repr

/-- A successfully fetched Pyth price message: `price : i64`,
`exponent : i32`. -/
structure PriceFeed where
  price : Int
  exponent : Int
  deriving DecidableEq, Repr

/-- The arithmetic of `get_sol_usd_price` after the SDK fetch succeeded:
positivity check and normalization of (price, exponent) to 8 decimals.
`10_u64.pow(..)` and the `*` of the multiplicative branch are unchecked. -/
def get_sol_usd_price (feed : PriceFeed) : Except ProgErr Nat := do
  require (0 < feed.price) ErrorCode.InvalidPriceData
  if -8 ≤ feed.exponent then do
    let p ← u64_pow 10 (feed.exponent + 8).toNat
    u64_mul feed.price.toNat p
  else do
    let p ← u64_pow 10 (-feed.exponent - 8).toNat
    .ok (feed.price.toNat / p)

/-- Result of a successful `initialize_sale`: the created `Sale` record. -/
def initialize_sale (token_price_usd max_tokens min_purchase max_purchase : Nat)
    (sale_duration : Int) (max_age : Nat) (now : Int) : Except ProgErr Sale := do
  require (0 < token_price_usd) ErrorCode.InvalidPrice
  require (0 < max_tokens) ErrorCode.InvalidAmount
  require (0 < min_purchase ∧ min_purchase ≤ max_purchase) ErrorCode.InvalidPurchaseLimit
  require (0 < sale_duration) ErrorCode.InvalidDuration
  require (0 < max_age ∧ max_age ≤ 3600) ErrorCode.InvalidMaxAge
  let end_time ← i64_add now sale_duration
  .ok { token_price_usd := token_price_usd
        max_tokens := max_tokens
        min_purchase := min_purchase
        max_purchase := max_purchase
        tokens_sold := 0
        total_raised := 0
        start_time := now
        end_time := end_time
        max_price_age := max_age
        is_active := true
        is_paused := false }

/-- Result of a successful `purchase_tokens`: the updated `Sale` and
`UserPurchase` records and the lamports charged to the buyer (the amount
passed to the system-program transfer). -/
structure PurchaseOk where
  sale : Sale
  user_purchase : UserPurchase
  sol_cost : Nat
  deriving DecidableEq, Repr

/-- The `purchase_tokens` instruction, in source order: lifecycle guards,
amount bounds, global cap, oracle read, cost computation, per-wallet cap,
the two transfers (recorded via `sol_cost` and `token_amount`), counter
updates. -/
def purchase_tokens (sale : Sale) (user_purchase : UserPurchase) (now : Int)
    (feed : PriceFeed) (token_amount : Nat) : Except ProgErr PurchaseOk := do
  require (sale.is_active = true) ErrorCode.SaleInactive
  require (sale.is_paused = false) ErrorCode.SalePaused
  require (sale.start_time ≤ now ∧ now ≤ sale.end_time) ErrorCode.SaleNotActive
  require (sale.min_purchase ≤ token_amount) ErrorCode.BelowMinimumPurchase
  require (token_amount ≤ sale.max_purchase) ErrorCode.ExceedsMaximumPurchase
  let sold_plus ← u64_add sale.tokens_sold token_amount
  require (sold_plus ≤ sale.max_tokens) ErrorCode.ExceedsMaxTokens
  let sol_usd_price ← get_sol_usd_price feed
  let usd_cost ← ok_or (checked_mul token_amount sale.token_price_usd) ErrorCode.MathOverflow
  let lamports ← ok_or (checked_mul usd_cost 1000000000) ErrorCode.MathOverflow
  let sol_cost ← ok_or (checked_div lamports sol_usd_price) ErrorCode.MathOverflow
  let user_plus ← u64_add user_purchase.tokens_purchased token_amount
  require (user_plus ≤ sale.max_purchase) ErrorCode.ExceedsUserLimit
  let new_sold ← u64_add sale.tokens_sold token_amount
  let new_raised ← u64_add sale.total_raised sol_cost
  let new_purchased ← u64_add user_purchase.tokens_purchased token_amount
  let new_contrib ← u64_add user_purchase.sol_contributed sol_cost
  .ok { sale := { sale with tokens_sold := new_sold, total_raised := new_raised }
        user_purchase := { tokens_purchased := new_purchased, sol_contributed := new_contrib }
        sol_cost := sol_cost }

/-- The `toggle_pause` instruction (always succeeds). -/
def toggle_pause (sale : Sale) : Sale :=
  { sale with is_paused := ! sale.is_paused }

/-- The `end_sale` instruction (always succeeds). -/
def end_sale (sale : Sale) (now : Int) : Sale :=
  { sale with is_active := false, end_time := now }

/-- Result of a successful `withdraw_remaining_tokens`: the vault balance
after the call, the SPL transfer performed (if any), and the amount in the
emitted `TokensWithdrawn` event. -/
structure WithdrawOk where
  vault : Nat
  transfer_amount : Option Nat
  event_amount : Nat
  deriving DecidableEq, Repr

/-- The `withdraw_remaining_tokens` instruction: gate on closure, then
drain the vault (no transfer when the balance is zero). -/
def withdraw_remaining_tokens (sale : Sale) (now : Int) (vault : Nat) :
    Except ProgErr WithdrawOk := do
  require (sale.is_active = false ∨ sale.end_time < now) ErrorCode.SaleStillActive
  let remaining_tokens := vault
  if 0 < remaining_tokens then
    .ok { vault := vault - remaining_tokens
          transfer_amount := some remaining_tokens
          event_amount := remaining_tokens }
  else
    .ok { vault := vault, transfer_amount := none, event_amount := remaining_tokens }

/-- Optional field update of `update_sale_params` for `new_price_usd`. -/
def upd_price (sale : Sale) (o : Option Nat) : Except ProgErr Sale :=
  match o with
  | some price => do
      require (0 < price) ErrorCode.InvalidPrice
      .ok { sale with token_price_usd := price }
  | none => .ok sale

/-- Optional field update of `update_sale_params` for `new_max_tokens`. -/
def upd_max_tokens (sale : Sale) (o : Option Nat) : Except ProgErr Sale :=
  match o with
  | some max_tokens => do
      require (0 < max_tokens) ErrorCode.InvalidAmount
      .ok { sale with max_tokens := max_tokens }
  | none => .ok sale

/-- Optional field update of `update_sale_params` for `new_min_purchase`. -/
def upd_min_purchase (sale : Sale) (o : Option Nat) : Except ProgErr Sale :=
  match o with
  | some min_purchase => do
      require (0 < min_purchase) ErrorCode.InvalidPurchaseLimit
      .ok { sale with min_purchase := min_purchase }
  | none => .ok sale

/-- Optional field update of `update_sale_params` for `new_max_purchase`. -/
def upd_max_purchase (sale : Sale) (o : Option Nat) : Except ProgErr Sale :=
  match o with
  | some max_purchase => do
      require (0 < max_purchase) ErrorCode.InvalidPurchaseLimit
      .ok { sale with max_purchase := max_purchase }
  | none => .ok sale

/-- Optional field update of `update_sale_params` for `new_max_age`. -/
def upd_max_age (sale : Sale) (o : Option Nat) : Except ProgErr Sale :=
  match o with
  | some max_age => do
      require (0 < max_age ∧ max_age ≤ 3600) ErrorCode.InvalidMaxAge
      .ok { sale with max_price_age := max_age }
  | none => .ok sale

/-- The `update_sale_params` instruction: pre-start gate, the five optional
field updates in source order, and the final `min ≤ max` re-assertion. -/
def update_sale_params (sale : Sale) (now : Int)
    (new_price_usd new_max_tokens new_min_purchase new_max_purchase new_max_age : Option Nat) :
    Except ProgErr Sale := do
  require (now < sale.start_time) ErrorCode.SaleAlreadyStarted
  let s1 ← upd_price sale new_price_usd
  let s2 ← upd_max_tokens s1 new_max_tokens
  let s3 ← upd_min_purchase s2 new_min_purchase
  let s4 ← upd_max_purchase s3 new_max_purchase
  let s5 ← upd_max_age s4 new_max_age
  require (s5.min_purchase ≤ s5.max_purchase) ErrorCode.InvalidPurchaseLimit
  .ok s5

/-- On-chain state of one sale: the `Sale` account, the `UserPurchase`
account of every buyer (indexed by buyer identity; fresh accounts are
zero-initialized), and the token balance of the sale vault. -/
structure Chain where
  sale : Sale
  ups : Nat → UserPurchase
  vault : Nat

/-- One instruction against an existing sale.  `initialize_sale` is not a
member: re-initializing an existing (authority, token_mint) PDA fails at
account creation. -/
inductive Instr where
  | purchase (buyer : Nat) (feed : PriceFeed) (token_amount : Nat)
  | togglePause
  | endSale
  | withdraw
  | updateParams (new_price_usd new_max_tokens new_min_purchase new_max_purchase new_max_age : Option Nat)

/-- Effect of one instruction on the chain state, as an `Except`. -/
def exec_instr (c : Chain) (now : Int) (i : Instr) : Except ProgErr Chain :=
  match i with
  | .purchase buyer feed token_amount => do
      let r ← purchase_tokens c.sale (c.ups buyer) now feed token_amount
      .ok { c with sale := r.sale, ups := Function.update c.ups buyer r.user_purchase }
  | .togglePause => .ok { c with sale := toggle_pause c.sale }
  | .endSale => .ok { c with sale := end_sale c.sale now }
  | .withdraw => do
      let r ← withdraw_remaining_tokens c.sale now c.vault
      .ok { c with vault := r.vault }
  | .updateParams o1 o2 o3 o4 o5 => do
      let s ← update_sale_params c.sale now o1 o2 o3 o4 o5
      .ok { c with sale := s }

/-- Transactional execution: a failing instruction rolls back, leaving the
state unchanged. -/
def run_instr (c : Chain) (now : Int) (i : Instr) : Chain :=
  match exec_instr c now i with
  | .ok c2 => c2
  | .error _ => c

/-- Run a list of timestamped instructions in order. -/
def run_trace (c : Chain) (tr : List (Int × Instr)) : Chain :=
  tr.foldl (fun acc p => run_instr acc p.1 p.2) c

/-- The clock is monotone along the trace, starting no earlier than `t`. -/
def clock_mono : Int → List (Int × Instr) → Prop
  | _, [] => True
  | t, (t2, _) :: rest => t ≤ t2 ∧ clock_mono t2 rest

/-- Chain state immediately after `initialize_sale` produced `sale`:
no purchases yet, vault funded with `vault` tokens. -/
def init_chain (sale : Sale) (vault : Nat) : Chain :=
  { sale := sale, ups := fun _ => { tokens_purchased := 0, sol_contributed := 0 }, vault := vault }

end IcoTokenSale

namespace IcoTokenSale

theorem ok_bind {α β : Type} (a : α) (f : α → Except ProgErr β) :
    (Except.ok a >>= f) = f a := rfl

theorem error_bind {α β : Type} (e : ProgErr) (f : α → Except ProgErr β) :
    ((Except.error e : Except ProgErr α) >>= f) = Except.error e := rfl

theorem require_pos {c : Prop} [Decidable c] (h : c) (e : ErrorCode) :
    require c e = Except.ok () := if_pos h

theorem require_neg {c : Prop} [Decidable c] (h : ¬ c) (e : ErrorCode) :
    require c e = Except.error (ProgErr.code e) := if_neg h

theorem u64_add_ok {a b : Nat} (h : a + b ≤ U64_MAX) : u64_add a b = .ok (a + b) := if_pos h

theorem u64_add_err {a b : Nat} (h : ¬ a + b ≤ U64_MAX) :
    u64_add a b = .error .overflowAbort := if_neg h

theorem u64_mul_ok {a b : Nat} (h : a * b ≤ U64_MAX) : u64_mul a b = .ok (a * b) := if_pos h

theorem u64_mul_err {a b : Nat} (h : ¬ a * b ≤ U64_MAX) :
    u64_mul a b = .error .overflowAbort := if_neg h

theorem u64_pow_ok {a k : Nat} (h : a ^ k ≤ U64_MAX) : u64_pow a k = .ok (a ^ k) := if_pos h

theorem u64_pow_err {a k : Nat} (h : ¬ a ^ k ≤ U64_MAX) :
    u64_pow a k = .error .overflowAbort := if_neg h

theorem checked_mul_some {a b : Nat} (h : a * b ≤ U64_MAX) :
    checked_mul a b = some (a * b) := if_pos h

theorem checked_mul_none {a b : Nat} (h : ¬ a * b ≤ U64_MAX) :
    checked_mul a b = none := if_neg h

theorem checked_div_some {a b : Nat} (h : b ≠ 0) : checked_div a b = some (a / b) := if_neg h

theorem checked_div_none {a : Nat} : checked_div a 0 = none := if_pos rfl

theorem ok_or_some {o : Option Nat} {v : Nat} (h : o = some v) (e : ErrorCode) :
    ok_or o e = .ok v := by rw [h]; rfl

theorem ok_or_none {o : Option Nat} (h : o = none) (e : ErrorCode) :
    ok_or o e = .error (.code e) := by rw [h]; rfl

/-- Elimination principle for a successful `purchase_tokens`: every guard
held, the cost has the floor-division form, and the result record is the
input with the four counters bumped by exact (non-overflowing) sums. -/
theorem purchase_tokens_ok {sale : Sale} {up : UserPurchase} {now : Int} {feed : PriceFeed}
    {amt : Nat} {r : PurchaseOk} (h : purchase_tokens sale up now feed amt = .ok r) :
    sale.is_active = true ∧ sale.is_paused = false ∧
    sale.start_time ≤ now ∧ now ≤ sale.end_time ∧
    sale.min_purchase ≤ amt ∧ amt ≤ sale.max_purchase ∧
    sale.tokens_sold + amt ≤ U64_MAX ∧ sale.tokens_sold + amt ≤ sale.max_tokens ∧
    ∃ p, get_sol_usd_price feed = .ok p ∧ 0 < p ∧
      amt * sale.token_price_usd ≤ U64_MAX ∧
      amt * sale.token_price_usd * 1000000000 ≤ U64_MAX ∧
      up.tokens_purchased + amt ≤ U64_MAX ∧
      up.tokens_purchased + amt ≤ sale.max_purchase ∧
      sale.total_raised + amt * sale.token_price_usd * 1000000000 / p ≤ U64_MAX ∧
      up.sol_contributed + amt * sale.token_price_usd * 1000000000 / p ≤ U64_MAX ∧
      r = { sale := { sale with
                        tokens_sold := sale.tokens_sold + amt
                        total_raised := sale.total_raised + amt * sale.token_price_usd * 1000000000 / p }
            user_purchase := { tokens_purchased := up.tokens_purchased + amt
                               sol_contributed := up.sol_contributed + amt * sale.token_price_usd * 1000000000 / p }
            sol_cost := amt * sale.token_price_usd * 1000000000 / p } := by
  unfold purchase_tokens at h
  by_cases h1 : sale.is_active = true
  case neg => rw [require_neg h1, error_bind] at h; exact Except.noConfusion h
  rw [require_pos h1, ok_bind] at h
  by_cases h2 : sale.is_paused = false
  case neg => rw [require_neg h2, error_bind] at h; exact Except.noConfusion h
  rw [require_pos h2, ok_bind] at h
  by_cases h3 : sale.start_time ≤ now ∧ now ≤ sale.end_time
  case neg => rw [require_neg h3, error_bind] at h; exact Except.noConfusion h
  rw [require_pos h3, ok_bind] at h
  by_cases h4 : sale.min_purchase ≤ amt
  case neg => rw [require_neg h4, error_bind] at h; exact Except.noConfusion h
  rw [require_pos h4, ok_bind] at h
  by_cases h5 : amt ≤ sale.max_purchase
  case neg => rw [require_neg h5, error_bind] at h; exact Except.noConfusion h
  rw [require_pos h5, ok_bind] at h
  by_cases h6 : sale.tokens_sold + amt ≤ U64_MAX
  case neg => rw [u64_add_err h6, error_bind] at h; exact Except.noConfusion h
  rw [u64_add_ok h6, ok_bind] at h
  by_cases h7 : sale.tokens_sold + amt ≤ sale.max_tokens
  case neg => rw [require_neg h7, error_bind] at h; exact Except.noConfusion h
  rw [require_pos h7, ok_bind] at h
  cases hp : get_sol_usd_price feed with
  | error e => rw [hp, error_bind] at h; exact Except.noConfusion h
  | ok p =>
  rw [hp, ok_bind] at h
  by_cases h8 : amt * sale.token_price_usd ≤ U64_MAX
  case neg => rw [ok_or_none (checked_mul_none h8), error_bind] at h; exact Except.noConfusion h
  rw [ok_or_some (checked_mul_some h8), ok_bind] at h
  by_cases h9 : amt * sale.token_price_usd * 1000000000 ≤ U64_MAX
  case neg => rw [ok_or_none (checked_mul_none h9), error_bind] at h; exact Except.noConfusion h
  rw [ok_or_some (checked_mul_some h9), ok_bind] at h
  by_cases hp0 : p = 0
  case pos =>
    subst hp0; rw [ok_or_none checked_div_none, error_bind] at h; exact Except.noConfusion h
  rw [ok_or_some (checked_div_some hp0), ok_bind] at h
  by_cases h10 : up.tokens_purchased + amt ≤ U64_MAX
  case neg => rw [u64_add_err h10, error_bind] at h; exact Except.noConfusion h
  rw [u64_add_ok h10, ok_bind] at h
  by_cases h11 : up.tokens_purchased + amt ≤ sale.max_purchase
  case neg => rw [require_neg h11, error_bind] at h; exact Except.noConfusion h
  rw [require_pos h11, ok_bind] at h
  rw [ok_bind] at h
  by_cases h12 : sale.total_raised + amt * sale.token_price_usd * 1000000000 / p ≤ U64_MAX
  case neg => rw [u64_add_err h12, error_bind] at h; exact Except.noConfusion h
  rw [u64_add_ok h12, ok_bind] at h
  rw [ok_bind] at h
  by_cases h13 : up.sol_contributed + amt * sale.token_price_usd * 1000000000 / p ≤ U64_MAX
  case neg => rw [u64_add_err h13, error_bind] at h; exact Except.noConfusion h
  rw [u64_add_ok h13, ok_bind] at h
  injection h with h
  exact ⟨h1, h2, h3.1, h3.2, h4, h5, h6, h7, p, rfl, Nat.pos_of_ne_zero hp0,
    h8, h9, h10, h11, h12, h13, h.symm⟩

end IcoTokenSale

namespace IcoTokenSale

theorem i64_add_ok {a b : Int} (h : I64_MIN ≤ a + b ∧ a + b ≤ I64_MAX) :
    i64_add a b = .ok (a + b) := if_pos h

theorem i64_add_err {a b : Int} (h : ¬ (I64_MIN ≤ a + b ∧ a + b ≤ I64_MAX)) :
    i64_add a b = .error .overflowAbort := if_neg h

/-- A purchase against an inactive sale fails at the first guard. -/
theorem purchase_tokens_inactive {sale : Sale} {up : UserPurchase} {now : Int}
    {feed : PriceFeed} {amt : Nat} (h : sale.is_active = false) :
    purchase_tokens sale up now feed amt = .error (.code .SaleInactive) := by
  unfold purchase_tokens
  rw [require_neg (by simp [h]), error_bind]

/-- With the five leading guards satisfied and the (non-overflowing) sum
above the global cap, the purchase fails with `ExceedsMaxTokens`. -/
theorem purchase_tokens_exceeds_max_tokens {sale : Sale} {up : UserPurchase} {now : Int}
    {feed : PriceFeed} {amt : Nat}
    (h1 : sale.is_active = true) (h2 : sale.is_paused = false)
    (h3 : sale.start_time ≤ now ∧ now ≤ sale.end_time)
    (h4 : sale.min_purchase ≤ amt) (h5 : amt ≤ sale.max_purchase)
    (h6 : sale.tokens_sold + amt ≤ U64_MAX)
    (h7 : ¬ sale.tokens_sold + amt ≤ sale.max_tokens) :
    purchase_tokens sale up now feed amt = .error (.code .ExceedsMaxTokens) := by
  unfold purchase_tokens
  rw [require_pos h1, ok_bind, require_pos h2, ok_bind, require_pos h3, ok_bind,
    require_pos h4, ok_bind, require_pos h5, ok_bind, u64_add_ok h6, ok_bind,
    require_neg h7, error_bind]

/-- With every guard and the whole cost computation succeeding, a request
that lifts the cumulative per-wallet counter above `max_purchase` fails
with `ExceedsUserLimit`. -/
theorem purchase_tokens_exceeds_user_limit {sale : Sale} {up : UserPurchase} {now : Int}
    {feed : PriceFeed} {amt p : Nat}
    (h1 : sale.is_active = true) (h2 : sale.is_paused = false)
    (h3 : sale.start_time ≤ now ∧ now ≤ sale.end_time)
    (h4 : sale.min_purchase ≤ amt) (h5 : amt ≤ sale.max_purchase)
    (h6 : sale.tokens_sold + amt ≤ U64_MAX)
    (h7 : sale.tokens_sold + amt ≤ sale.max_tokens)
    (hp : get_sol_usd_price feed = .ok p) (hp0 : p ≠ 0)
    (h8 : amt * sale.token_price_usd ≤ U64_MAX)
    (h9 : amt * sale.token_price_usd * 1000000000 ≤ U64_MAX)
    (h10 : up.tokens_purchased + amt ≤ U64_MAX)
    (h11 : ¬ up.tokens_purchased + amt ≤ sale.max_purchase) :
    purchase_tokens sale up now feed amt = .error (.code .ExceedsUserLimit) := by
  unfold purchase_tokens
  rw [require_pos h1, ok_bind, require_pos h2, ok_bind, require_pos h3, ok_bind,
    require_pos h4, ok_bind, require_pos h5, ok_bind, u64_add_ok h6, ok_bind,
    require_pos h7, ok_bind, hp, ok_bind, ok_or_some (checked_mul_some h8), ok_bind,
    ok_or_some (checked_mul_some h9), ok_bind, ok_or_some (checked_div_some hp0), ok_bind,
    u64_add_ok h10, ok_bind, require_neg h11, error_bind]

/-- When the normalized oracle price is zero and every earlier guard
passes, the purchase fails with `MathOverflow` (either from a checked
multiplication or from `checked_div` with a zero divisor). -/
theorem purchase_tokens_zero_price {sale : Sale} {up : UserPurchase} {now : Int}
    {feed : PriceFeed} {amt : Nat}
    (h1 : sale.is_active = true) (h2 : sale.is_paused = false)
    (h3 : sale.start_time ≤ now ∧ now ≤ sale.end_time)
    (h4 : sale.min_purchase ≤ amt) (h5 : amt ≤ sale.max_purchase)
    (h6 : sale.tokens_sold + amt ≤ U64_MAX)
    (h7 : sale.tokens_sold + amt ≤ sale.max_tokens)
    (hp : get_sol_usd_price feed = .ok 0) :
    purchase_tokens sale up now feed amt = .error (.code .MathOverflow) := by
  unfold purchase_tokens
  rw [require_pos h1, ok_bind, require_pos h2, ok_bind, require_pos h3, ok_bind,
    require_pos h4, ok_bind, require_pos h5, ok_bind, u64_add_ok h6, ok_bind,
    require_pos h7, ok_bind, hp, ok_bind]
  by_cases h8 : amt * sale.token_price_usd ≤ U64_MAX
  · rw [ok_or_some (checked_mul_some h8), ok_bind]
    by_cases h9 : amt * sale.token_price_usd * 1000000000 ≤ U64_MAX
    · rw [ok_or_some (checked_mul_some h9), ok_bind, ok_or_none checked_div_none, error_bind]
    · rw [ok_or_none (checked_mul_none h9), error_bind]
  · rw [ok_or_none (checked_mul_none h8), error_bind]

theorem upd_price_fields {sale s2 : Sale} {o : Option Nat} (h : upd_price sale o = .ok s2) :
    s2.tokens_sold = sale.tokens_sold ∧ s2.start_time = sale.start_time ∧
    s2.is_active = sale.is_active := by
  cases o with
  | none => simp only [upd_price] at h; injection h with h; subst h; exact ⟨rfl, rfl, rfl⟩
  | some v =>
    simp only [upd_price] at h
    by_cases hv : 0 < v
    · rw [require_pos hv, ok_bind] at h; injection h with h; subst h; exact ⟨rfl, rfl, rfl⟩
    · rw [require_neg hv, error_bind] at h; exact Except.noConfusion h

theorem upd_max_tokens_fields {sale s2 : Sale} {o : Option Nat}
    (h : upd_max_tokens sale o = .ok s2) :
    s2.tokens_sold = sale.tokens_sold ∧ s2.start_time = sale.start_time ∧
    s2.is_active = sale.is_active := by
  cases o with
  | none => simp only [upd_max_tokens] at h; injection h with h; subst h; exact ⟨rfl, rfl, rfl⟩
  | some v =>
    simp only [upd_max_tokens] at h
    by_cases hv : 0 < v
    · rw [require_pos hv, ok_bind] at h; injection h with h; subst h; exact ⟨rfl, rfl, rfl⟩
    · rw [require_neg hv, error_bind] at h; exact Except.noConfusion h

theorem upd_min_purchase_fields {sale s2 : Sale} {o : Option Nat}
    (h : upd_min_purchase sale o = .ok s2) :
    s2.tokens_sold = sale.tokens_sold ∧ s2.start_time = sale.start_time ∧
    s2.is_active = sale.is_active := by
  cases o with
  | none => simp only [upd_min_purchase] at h; injection h with h; subst h; exact ⟨rfl, rfl, rfl⟩
  | some v =>
    simp only [upd_min_purchase] at h
    by_cases hv : 0 < v
    · rw [require_pos hv, ok_bind] at h; injection h with h; subst h; exact ⟨rfl, rfl, rfl⟩
    · rw [require_neg hv, error_bind] at h; exact Except.noConfusion h

theorem upd_max_purchase_fields {sale s2 : Sale} {o : Option Nat}
    (h : upd_max_purchase sale o = .ok s2) :
    s2.tokens_sold = sale.tokens_sold ∧ s2.start_time = sale.start_time ∧
    s2.is_active = sale.is_active := by
  cases o with
  | none => simp only [upd_max_purchase] at h; injection h with h; subst h; exact ⟨rfl, rfl, rfl⟩
  | some v =>
    simp only [upd_max_purchase] at h
    by_cases hv : 0 < v
    · rw [require_pos hv, ok_bind] at h; injection h with h; subst h; exact ⟨rfl, rfl, rfl⟩
    · rw [require_neg hv, error_bind] at h; exact Except.noConfusion h

theorem upd_max_age_fields {sale s2 : Sale} {o : Option Nat}
    (h : upd_max_age sale o = .ok s2) :
    s2.tokens_sold = sale.tokens_sold ∧ s2.start_time = sale.start_time ∧
    s2.is_active = sale.is_active := by
  cases o with
  | none => simp only [upd_max_age] at h; injection h with h; subst h; exact ⟨rfl, rfl, rfl⟩
  | some v =>
    simp only [upd_max_age] at h
    by_cases hv : 0 < v ∧ v ≤ 3600
    · rw [require_pos hv, ok_bind] at h; injection h with h; subst h; exact ⟨rfl, rfl, rfl⟩
    · rw [require_neg hv, error_bind] at h; exact Except.noConfusion h

/-- Elimination principle for a successful `update_sale_params`: the call
was strictly before `start_time`, the counters and lifecycle fields are
untouched, and the updated record satisfies `min_purchase ≤ max_purchase`. -/
theorem update_sale_params_ok {sale s2 : Sale} {now : Int} {o1 o2 o3 o4 o5 : Option Nat}
    (h : update_sale_params sale now o1 o2 o3 o4 o5 = .ok s2) :
    now < sale.start_time ∧ s2.tokens_sold = sale.tokens_sold ∧
    s2.start_time = sale.start_time ∧ s2.is_active = sale.is_active ∧
    s2.min_purchase ≤ s2.max_purchase := by
  unfold update_sale_params at h
  by_cases h0 : now < sale.start_time
  case neg => rw [require_neg h0, error_bind] at h; exact Except.noConfusion h
  rw [require_pos h0, ok_bind] at h
  cases e1 : upd_price sale o1 with
  | error e => rw [e1, error_bind] at h; exact Except.noConfusion h
  | ok s1v =>
  rw [e1, ok_bind] at h
  cases e2 : upd_max_tokens s1v o2 with
  | error e => rw [e2, error_bind] at h; exact Except.noConfusion h
  | ok s2v =>
  rw [e2, ok_bind] at h
  cases e3 : upd_min_purchase s2v o3 with
  | error e => rw [e3, error_bind] at h; exact Except.noConfusion h
  | ok s3v =>
  rw [e3, ok_bind] at h
  cases e4 : upd_max_purchase s3v o4 with
  | error e => rw [e4, error_bind] at h; exact Except.noConfusion h
  | ok s4v =>
  rw [e4, ok_bind] at h
  cases e5 : upd_max_age s4v o5 with
  | error e => rw [e5, error_bind] at h; exact Except.noConfusion h
  | ok s5v =>
  rw [e5, ok_bind] at h
  by_cases hmm : s5v.min_purchase ≤ s5v.max_purchase
  case neg => rw [require_neg hmm, error_bind] at h; exact Except.noConfusion h
  rw [require_pos hmm, ok_bind] at h
  injection h with h
  subst h
  obtain ⟨a1, b1, c1⟩ := upd_price_fields e1
  obtain ⟨a2, b2, c2⟩ := upd_max_tokens_fields e2
  obtain ⟨a3, b3, c3⟩ := upd_min_purchase_fields e3
  obtain ⟨a4, b4, c4⟩ := upd_max_purchase_fields e4
  obtain ⟨a5, b5, c5⟩ := upd_max_age_fields e5
  refine ⟨h0, ?_, ?_, ?_, hmm⟩
  · rw [a5, a4, a3, a2, a1]
  · rw [b5, b4, b3, b2, b1]
  · rw [c5, c4, c3, c2, c1]

/-- An `update_sale_params` at or after `start_time` fails with
`SaleAlreadyStarted` before touching anything. -/
theorem update_sale_params_started {sale : Sale} {now : Int} {o1 o2 o3 o4 o5 : Option Nat}
    (h : sale.start_time ≤ now) :
    update_sale_params sale now o1 o2 o3 o4 o5 = .error (.code .SaleAlreadyStarted) := by
  unfold update_sale_params
  rw [require_neg (not_lt.mpr h), error_bind]

end IcoTokenSale

namespace IcoTokenSale

/-- Elimination principle for a successful `initialize_sale`: every
validation held, the i64 end-time addition did not overflow, and the
created record is fully determined. -/
theorem initialize_sale_ok {price mt mn mx : Nat} {dur : Int} {ma : Nat} {now : Int} {s : Sale}
    (h : initialize_sale price mt mn mx dur ma now = .ok s) :
    0 < price ∧ 0 < mt ∧ 0 < mn ∧ mn ≤ mx ∧ 0 < dur ∧ 0 < ma ∧ ma ≤ 3600 ∧
    I64_MIN ≤ now + dur ∧ now + dur ≤ I64_MAX ∧
    s = { token_price_usd := price, max_tokens := mt, min_purchase := mn, max_purchase := mx,
          tokens_sold := 0, total_raised := 0, start_time := now, end_time := now + dur,
          max_price_age := ma, is_active := true, is_paused := false } := by
  unfold initialize_sale at h
  by_cases c1 : 0 < price
  case neg => rw [require_neg c1, error_bind] at h; exact Except.noConfusion h
  rw [require_pos c1, ok_bind] at h
  by_cases c2 : 0 < mt
  case neg => rw [require_neg c2, error_bind] at h; exact Except.noConfusion h
  rw [require_pos c2, ok_bind] at h
  by_cases c3 : 0 < mn ∧ mn ≤ mx
  case neg => rw [require_neg c3, error_bind] at h; exact Except.noConfusion h
  rw [require_pos c3, ok_bind] at h
  by_cases c4 : 0 < dur
  case neg => rw [require_neg c4, error_bind] at h; exact Except.noConfusion h
  rw [require_pos c4, ok_bind] at h
  by_cases c5 : 0 < ma ∧ ma ≤ 3600
  case neg => rw [require_neg c5, error_bind] at h; exact Except.noConfusion h
  rw [require_pos c5, ok_bind] at h
  by_cases c6 : I64_MIN ≤ now + dur ∧ now + dur ≤ I64_MAX
  case neg => rw [i64_add_err c6, error_bind] at h; exact Except.noConfusion h
  rw [i64_add_ok c6, ok_bind] at h
  injection h with h
  exact ⟨c1, c2, c3.1, c3.2, c4, c5.1, c5.2, c6.1, c6.2, h.symm⟩

/-- Introduction principle for a successful `initialize_sale`. -/
theorem initialize_sale_intro {price mt mn mx : Nat} {dur : Int} {ma : Nat} {now : Int}
    (c1 : 0 < price) (c2 : 0 < mt) (c3 : 0 < mn ∧ mn ≤ mx) (c4 : 0 < dur)
    (c5 : 0 < ma ∧ ma ≤ 3600) (c6 : I64_MIN ≤ now + dur ∧ now + dur ≤ I64_MAX) :
    initialize_sale price mt mn mx dur ma now =
      .ok { token_price_usd := price, max_tokens := mt, min_purchase := mn, max_purchase := mx,
            tokens_sold := 0, total_raised := 0, start_time := now, end_time := now + dur,
            max_price_age := ma, is_active := true, is_paused := false } := by
  unfold initialize_sale
  rw [require_pos c1, ok_bind, require_pos c2, ok_bind, require_pos c3, ok_bind,
    require_pos c4, ok_bind, require_pos c5, ok_bind, i64_add_ok c6, ok_bind]

theorem initialize_sale_invalid_price {price mt mn mx : Nat} {dur : Int} {ma : Nat} {now : Int}
    (hc : ¬ 0 < price) :
    initialize_sale price mt mn mx dur ma now = .error (.code .InvalidPrice) := by
  unfold initialize_sale
  rw [require_neg hc, error_bind]

theorem initialize_sale_invalid_amount {price mt mn mx : Nat} {dur : Int} {ma : Nat} {now : Int}
    (c1 : 0 < price) (hc : ¬ 0 < mt) :
    initialize_sale price mt mn mx dur ma now = .error (.code .InvalidAmount) := by
  unfold initialize_sale
  rw [require_pos c1, ok_bind, require_neg hc, error_bind]

theorem initialize_sale_invalid_limits {price mt mn mx : Nat} {dur : Int} {ma : Nat} {now : Int}
    (c1 : 0 < price) (c2 : 0 < mt) (hc : ¬ (0 < mn ∧ mn ≤ mx)) :
    initialize_sale price mt mn mx dur ma now = .error (.code .InvalidPurchaseLimit) := by
  unfold initialize_sale
  rw [require_pos c1, ok_bind, require_pos c2, ok_bind, require_neg hc, error_bind]

theorem initialize_sale_invalid_duration {price mt mn mx : Nat} {dur : Int} {ma : Nat} {now : Int}
    (c1 : 0 < price) (c2 : 0 < mt) (c3 : 0 < mn ∧ mn ≤ mx) (hc : ¬ 0 < dur) :
    initialize_sale price mt mn mx dur ma now = .error (.code .InvalidDuration) := by
  unfold initialize_sale
  rw [require_pos c1, ok_bind, require_pos c2, ok_bind, require_pos c3, ok_bind,
    require_neg hc, error_bind]

theorem initialize_sale_invalid_max_age {price mt mn mx : Nat} {dur : Int} {ma : Nat} {now : Int}
    (c1 : 0 < price) (c2 : 0 < mt) (c3 : 0 < mn ∧ mn ≤ mx) (c4 : 0 < dur)
    (hc : ¬ (0 < ma ∧ ma ≤ 3600)) :
    initialize_sale price mt mn mx dur ma now = .error (.code .InvalidMaxAge) := by
  unfold initialize_sale
  rw [require_pos c1, ok_bind, require_pos c2, ok_bind, require_pos c3, ok_bind,
    require_pos c4, ok_bind, require_neg hc, error_bind]

/-- A withdraw while the sale is active and the window has not elapsed
fails with `SaleStillActive`. -/
theorem withdraw_still_active {sale : Sale} {now : Int} {vault : Nat}
    (ha : sale.is_active = true) (ht : now ≤ sale.end_time) :
    withdraw_remaining_tokens sale now vault = .error (.code .SaleStillActive) := by
  unfold withdraw_remaining_tokens
  rw [require_neg ?_, error_bind]
  push_neg
  exact ⟨by simp [ha], ht⟩

/-- A withdraw on a closed or elapsed sale drains the vault; the zero
balance path performs no transfer and still succeeds with a zero-amount
event. -/
theorem withdraw_ok {sale : Sale} {now : Int} {vault : Nat}
    (h : sale.is_active = false ∨ sale.end_time < now) :
    withdraw_remaining_tokens sale now vault =
      .ok { vault := 0
            transfer_amount := if 0 < vault then some vault else none
            event_amount := vault } := by
  unfold withdraw_remaining_tokens
  rw [require_pos h, ok_bind]
  by_cases hv : 0 < vault
  · rw [if_pos hv, if_pos hv, Nat.sub_self]
  · have hv0 : vault = 0 := by omega
    subst hv0
    rw [if_neg hv, if_neg hv]

end IcoTokenSale

namespace IcoTokenSale

theorem exec_instr_purchase (c : Chain) (now : Int) (b : Nat) (feed : PriceFeed) (amt : Nat) :
    exec_instr c now (Instr.purchase b feed amt) =
      purchase_tokens c.sale (c.ups b) now feed amt >>= fun r =>
        .ok { c with sale := r.sale, ups := Function.update c.ups b r.user_purchase } := rfl

theorem exec_instr_toggle (c : Chain) (now : Int) :
    exec_instr c now Instr.togglePause = .ok { c with sale := toggle_pause c.sale } := rfl

theorem exec_instr_end (c : Chain) (now : Int) :
    exec_instr c now Instr.endSale = .ok { c with sale := end_sale c.sale now } := rfl

theorem exec_instr_withdraw (c : Chain) (now : Int) :
    exec_instr c now Instr.withdraw =
      withdraw_remaining_tokens c.sale now c.vault >>= fun r =>
        .ok { c with vault := r.vault } := rfl

theorem exec_instr_update (c : Chain) (now : Int) (o1 o2 o3 o4 o5 : Option Nat) :
    exec_instr c now (Instr.updateParams o1 o2 o3 o4 o5) =
      update_sale_params c.sale now o1 o2 o3 o4 o5 >>= fun s =>
        .ok { c with sale := s } := rfl

theorem run_instr_of_ok {c c2 : Chain} {now : Int} {i : Instr}
    (h : exec_instr c now i = .ok c2) : run_instr c now i = c2 := by
  unfold run_instr; rw [h]

theorem run_instr_of_error {c : Chain} {now : Int} {i : Instr} {e : ProgErr}
    (h : exec_instr c now i = .error e) : run_instr c now i = c := by
  unfold run_instr; rw [h]

/-- Inductive trace invariant, relative to the time `t` of the most recent
instruction: the global cap holds, and before `start_time` nothing has
been sold (purchases require `start_time ≤ now` and the clock is
monotone). -/
def sale_inv (t : Int) (sale : Sale) : Prop :=
  sale.tokens_sold ≤ sale.max_tokens ∧ (t < sale.start_time → sale.tokens_sold = 0)

theorem sale_inv_of_fields {t t2 : Int} {s s2 : Sale} (h : sale_inv t s) (ht : t ≤ t2)
    (e1 : s2.tokens_sold = s.tokens_sold) (e2 : s2.max_tokens = s.max_tokens)
    (e3 : s2.start_time = s.start_time) : sale_inv t2 s2 := by
  constructor
  · rw [e1, e2]; exact h.1
  · intro hlt
    rw [e1]
    exact h.2 (lt_of_le_of_lt ht (by rwa [e3] at hlt))

/-- One monotone-clock step preserves the trace invariant. -/
theorem step_inv {c : Chain} {t t2 : Int} {i : Instr}
    (h : sale_inv t c.sale) (ht : t ≤ t2) : sale_inv t2 (run_instr c t2 i).sale := by
  cases hr : exec_instr c t2 i with
  | error e => rw [run_instr_of_error hr]; exact sale_inv_of_fields h ht rfl rfl rfl
  | ok c2 =>
    rw [run_instr_of_ok hr]
    cases i with
    | purchase b feed amt =>
      rw [exec_instr_purchase] at hr
      cases hp : purchase_tokens c.sale (c.ups b) t2 feed amt with
      | error e2 => rw [hp, error_bind] at hr; exact Except.noConfusion hr
      | ok r =>
        rw [hp, ok_bind] at hr
        injection hr with hr
        subst hr
        obtain ⟨_, _, hst, _, _, _, _, hcap, p, _, _, _, _, _, _, _, _, hrr⟩ :=
          purchase_tokens_ok hp
        subst hrr
        exact ⟨hcap, fun hlt => absurd hst (not_le.mpr hlt)⟩
    | togglePause =>
      rw [exec_instr_toggle] at hr
      injection hr with hr
      subst hr
      exact sale_inv_of_fields h ht rfl rfl rfl
    | endSale =>
      rw [exec_instr_end] at hr
      injection hr with hr
      subst hr
      exact sale_inv_of_fields h ht rfl rfl rfl
    | withdraw =>
      rw [exec_instr_withdraw] at hr
      cases hw : withdraw_remaining_tokens c.sale t2 c.vault with
      | error e2 => rw [hw, error_bind] at hr; exact Except.noConfusion hr
      | ok r =>
        rw [hw, ok_bind] at hr
        injection hr with hr
        subst hr
        exact sale_inv_of_fields h ht rfl rfl rfl
    | updateParams o1 o2 o3 o4 o5 =>
      rw [exec_instr_update] at hr
      cases hu : update_sale_params c.sale t2 o1 o2 o3 o4 o5 with
      | error e2 => rw [hu, error_bind] at hr; exact Except.noConfusion hr
      | ok s2 =>
        rw [hu, ok_bind] at hr
        injection hr with hr
        subst hr
        obtain ⟨hlt, hsold, hstart, _, _⟩ := update_sale_params_ok hu
        have hzero : s2.tokens_sold = 0 := by
          rw [hsold]
          exact h.2 (lt_of_le_of_lt ht hlt)
        exact ⟨by rw [show ({ c with sale := s2 } : Chain).sale.tokens_sold = 0 from hzero];
                  exact Nat.zero_le _,
               fun _ => hzero⟩

/-- The trace invariant propagates along any monotone-clock trace. -/
theorem run_trace_inv {tr : List (Int × Instr)} {c : Chain} {t : Int}
    (h : sale_inv t c.sale) (hm : clock_mono t tr) :
    (run_trace c tr).sale.tokens_sold ≤ (run_trace c tr).sale.max_tokens := by
  induction tr generalizing c t with
  | nil => exact h.1
  | cons p rest ih =>
    obtain ⟨t2, i⟩ := p
    obtain ⟨h1, h2⟩ := hm
    exact ih (step_inv h h1) h2

/-- No instruction re-activates a closed sale. -/
theorem run_instr_inactive {c : Chain} {t : Int} {i : Instr}
    (h : c.sale.is_active = false) : (run_instr c t i).sale.is_active = false := by
  cases hr : exec_instr c t i with
  | error e => rw [run_instr_of_error hr]; exact h
  | ok c2 =>
    rw [run_instr_of_ok hr]
    cases i with
    | purchase b feed amt =>
      rw [exec_instr_purchase, purchase_tokens_inactive h, error_bind] at hr
      exact Except.noConfusion hr
    | togglePause =>
      rw [exec_instr_toggle] at hr
      injection hr with hr
      subst hr
      exact h
    | endSale =>
      rw [exec_instr_end] at hr
      injection hr with hr
      subst hr
      rfl
    | withdraw =>
      rw [exec_instr_withdraw] at hr
      cases hw : withdraw_remaining_tokens c.sale t c.vault with
      | error e2 => rw [hw, error_bind] at hr; exact Except.noConfusion hr
      | ok r =>
        rw [hw, ok_bind] at hr
        injection hr with hr
        subst hr
        exact h
    | updateParams o1 o2 o3 o4 o5 =>
      rw [exec_instr_update] at hr
      cases hu : update_sale_params c.sale t o1 o2 o3 o4 o5 with
      | error e2 => rw [hu, error_bind] at hr; exact Except.noConfusion hr
      | ok s2 =>
        rw [hu, ok_bind] at hr
        injection hr with hr
        subst hr
        show s2.is_active = false
        rw [(update_sale_params_ok hu).2.2.2.1]
        exact h

/-- A closed sale stays closed along any trace. -/
theorem run_trace_inactive {tr : List (Int × Instr)} {c : Chain}
    (h : c.sale.is_active = false) : (run_trace c tr).sale.is_active = false := by
  induction tr generalizing c with
  | nil => exact h
  | cons p rest ih => exact ih (run_instr_inactive h)

/-- Ending a sale makes it inactive in the resulting chain state. -/
theorem run_instr_end_sale (c : Chain) (t : Int) :
    (run_instr c t Instr.endSale).sale.is_active = false := rfl

end IcoTokenSale

namespace IcoTokenSale

/-- A concrete example sale: one dollar per token (8 decimals), cap of one
million tokens, wallet window of 10 to 1000 tokens, one-day window
starting at time 0, oracle staleness bound 60 seconds. -/
def demo_sale : Sale :=
  { token_price_usd := 100000000, max_tokens := 1000000, min_purchase := 10, max_purchase := 1000,
    tokens_sold := 0, total_raised := 0, start_time := 0, end_time := 86400,
    max_price_age := 60, is_active := true, is_paused := false }

/-- A 100-dollar-per-SOL oracle message already at 8 decimals. -/
def demo_feed : PriceFeed := { price := 10000000000, exponent := -8 }

/-- A fresh (zero-initialized) per-buyer record. -/
def demo_up0 : UserPurchase := { tokens_purchased := 0, sol_contributed := 0 }

/-- The example sale with a small global cap nearly exhausted. -/
def c1_sale : Sale := { demo_sale with max_tokens := 1000, tokens_sold := 900 }

/-- C1: along every monotone-clock instruction sequence started by a
successful `initialize_sale`, `tokens_sold ≤ max_tokens` holds after every
instruction; a purchase whose (u64-representable) running total would
exceed `max_tokens` is rejected with `ExceedsMaxTokens` before the counter
update; and `update_sale_params` succeeds only at `now < start_time`,
when nothing can have been sold yet. -/
theorem C1_global_cap_invariant :
    (∀ (price mt mn mx : Nat) (dur : Int) (ma : Nat) (t0 : Int) (sale0 : Sale) (vault : Nat)
        (tr : List (Int × Instr)),
        initialize_sale price mt mn mx dur ma t0 = .ok sale0 →
        clock_mono t0 tr →
        (run_trace (init_chain sale0 vault) tr).sale.tokens_sold ≤
          (run_trace (init_chain sale0 vault) tr).sale.max_tokens)
    ∧ (∀ (sale : Sale) (up : UserPurchase) (now : Int) (feed : PriceFeed) (amt : Nat),
        sale.max_tokens < sale.tokens_sold + amt →
        ∀ r, purchase_tokens sale up now feed amt ≠ .ok r)
    ∧ (∀ (sale : Sale) (up : UserPurchase) (now : Int) (feed : PriceFeed) (amt : Nat),
        sale.is_active = true → sale.is_paused = false →
        sale.start_time ≤ now → now ≤ sale.end_time →
        sale.min_purchase ≤ amt → amt ≤ sale.max_purchase →
        sale.tokens_sold + amt ≤ U64_MAX →
        sale.max_tokens < sale.tokens_sold + amt →
        purchase_tokens sale up now feed amt = .error (.code .ExceedsMaxTokens))
    ∧ (∀ (sale s2 : Sale) (now : Int) (o1 o2 o3 o4 o5 : Option Nat),
        update_sale_params sale now o1 o2 o3 o4 o5 = .ok s2 → now < sale.start_time) := by
  refine ⟨?_, ?_, ?_, ?_⟩
  · intro price mt mn mx dur ma t0 sale0 vault tr hinit hmono
    obtain ⟨_, _, _, _, _, _, _, _, _, hs⟩ := initialize_sale_ok hinit
    have hinv : sale_inv t0 (init_chain sale0 vault).sale := by
      subst hs
      exact ⟨Nat.zero_le _, fun _ => rfl⟩
    exact run_trace_inv hinv hmono
  · intro sale up now feed amt hgt r h
    obtain ⟨_, _, _, _, _, _, _, hcap, _⟩ := purchase_tokens_ok h
    omega
  · intro sale up now feed amt h1 h2 h3a h3b h4 h5 h6 hgt
    exact purchase_tokens_exceeds_max_tokens h1 h2 ⟨h3a, h3b⟩ h4 h5 h6 (by omega)
  · intro sale s2 now o1 o2 o3 o4 o5 h
    exact (update_sale_params_ok h).1

theorem C1_global_cap_invariant_witness :
    ((run_trace (init_chain demo_sale 1000000)
        [((1 : Int), Instr.purchase 0 demo_feed 50), ((2 : Int), Instr.endSale)]).sale.tokens_sold ≤
      (run_trace (init_chain demo_sale 1000000)
        [((1 : Int), Instr.purchase 0 demo_feed 50), ((2 : Int), Instr.endSale)]).sale.max_tokens) ∧
    purchase_tokens c1_sale demo_up0 5 demo_feed 200 = .error (.code .ExceedsMaxTokens) ∧
    ((-5 : Int) < demo_sale.start_time) :=
  ⟨C1_global_cap_invariant.1 100000000 1000000 10 1000 86400 60 0 demo_sale 1000000
      [((1 : Int), Instr.purchase 0 demo_feed 50), ((2 : Int), Instr.endSale)]
      rfl ⟨by norm_num, by norm_num, trivial⟩,
   C1_global_cap_invariant.2.2.1 c1_sale demo_up0 5 demo_feed 200 rfl rfl
      (by decide) (by decide) (by decide) (by decide) (by decide) (by decide),
   C1_global_cap_invariant.2.2.2 demo_sale demo_sale (-5) none none none none none rfl⟩

/-- C2: on every successful purchase the lamports charged are exactly
floor((token_amount * token_price_usd * 10^9) / sol_usd_price), the two
multiplications having been overflow-checked and the divisor nonzero; the
literal instance amount 50, price 100000000, oracle 10000000000 settles at
exactly 500000000 lamports. -/
theorem C2_cost_formula :
    (∀ (sale : Sale) (up : UserPurchase) (now : Int) (feed : PriceFeed) (amt : Nat)
        (r : PurchaseOk),
        purchase_tokens sale up now feed amt = .ok r →
        ∃ p, get_sol_usd_price feed = .ok p ∧ 0 < p ∧
          amt * sale.token_price_usd ≤ U64_MAX ∧
          amt * sale.token_price_usd * 1000000000 ≤ U64_MAX ∧
          r.sol_cost = amt * sale.token_price_usd * 1000000000 / p)
    ∧ (∃ r, purchase_tokens demo_sale demo_up0 10 demo_feed 50 = .ok r ∧
        r.sol_cost = 500000000) := by
  constructor
  · intro sale up now feed amt r h
    obtain ⟨_, _, _, _, _, _, _, _, p, hp, hp0, h8, h9, _, _, _, _, hrr⟩ := purchase_tokens_ok h
    exact ⟨p, hp, hp0, h8, h9, by rw [hrr]⟩
  · exact ⟨_, rfl, rfl⟩

theorem C2_cost_formula_witness :
    ∃ p, get_sol_usd_price demo_feed = .ok p ∧ 0 < p ∧
      50 * demo_sale.token_price_usd ≤ U64_MAX ∧
      50 * demo_sale.token_price_usd * 1000000000 ≤ U64_MAX ∧
      ({ sale := { demo_sale with tokens_sold := 50, total_raised := 500000000 }
         user_purchase := { tokens_purchased := 50, sol_contributed := 500000000 }
         sol_cost := 500000000 } : PurchaseOk).sol_cost =
        50 * demo_sale.token_price_usd * 1000000000 / p :=
  C2_cost_formula.1 demo_sale demo_up0 10 demo_feed 50
    { sale := { demo_sale with tokens_sold := 50, total_raised := 500000000 }
      user_purchase := { tokens_purchased := 50, sol_contributed := 500000000 }
      sol_cost := 500000000 } rfl

/-- The example sale at one cent per token with a buyer who has already
accumulated 600 of the 1000-token wallet cap. -/
def c3_sale : Sale := { demo_sale with token_price_usd := 1000000, tokens_sold := 600 }

/-- The per-buyer record of that buyer. -/
def c3_up : UserPurchase := { tokens_purchased := 600, sol_contributed := 30000000 }

/-- C3: the per-wallet cap is cumulative: a successful purchase adds the
amount to the cumulative counter and keeps it at or below `max_purchase`;
whenever the cumulative sum would exceed `max_purchase` the purchase
cannot succeed, and with every earlier guard passing it fails precisely
with `ExceedsUserLimit`; a buyer at 600 of 1000 requesting 500 more is
rejected with `ExceedsUserLimit`. -/
theorem C3_per_wallet_cap :
    (∀ (sale : Sale) (up : UserPurchase) (now : Int) (feed : PriceFeed) (amt : Nat)
        (r : PurchaseOk),
        purchase_tokens sale up now feed amt = .ok r →
        r.user_purchase.tokens_purchased = up.tokens_purchased + amt ∧
        r.user_purchase.tokens_purchased ≤ sale.max_purchase)
    ∧ (∀ (sale : Sale) (up : UserPurchase) (now : Int) (feed : PriceFeed) (amt : Nat),
        sale.max_purchase < up.tokens_purchased + amt →
        ∀ r, purchase_tokens sale up now feed amt ≠ .ok r)
    ∧ (∀ (sale : Sale) (up : UserPurchase) (now : Int) (feed : PriceFeed) (amt p : Nat),
        sale.is_active = true → sale.is_paused = false →
        sale.start_time ≤ now → now ≤ sale.end_time →
        sale.min_purchase ≤ amt → amt ≤ sale.max_purchase →
        sale.tokens_sold + amt ≤ U64_MAX → sale.tokens_sold + amt ≤ sale.max_tokens →
        get_sol_usd_price feed = .ok p → p ≠ 0 →
        amt * sale.token_price_usd ≤ U64_MAX →
        amt * sale.token_price_usd * 1000000000 ≤ U64_MAX →
        up.tokens_purchased + amt ≤ U64_MAX →
        sale.max_purchase < up.tokens_purchased + amt →
        purchase_tokens sale up now feed amt = .error (.code .ExceedsUserLimit))
    ∧ purchase_tokens c3_sale c3_up 10 demo_feed 500 = .error (.code .ExceedsUserLimit) := by
  refine ⟨?_, ?_, ?_, rfl⟩
  · intro sale up now feed amt r h
    obtain ⟨_, _, _, _, _, _, _, _, p, _, _, _, _, _, h11, _, _, hrr⟩ := purchase_tokens_ok h
    exact ⟨by rw [hrr], by rw [hrr]; exact h11⟩
  · intro sale up now feed amt hgt r h
    obtain ⟨_, _, _, _, _, _, _, _, p, _, _, _, _, _, h11, _⟩ := purchase_tokens_ok h
    omega
  · intro sale up now feed amt p h1 h2 h3a h3b h4 h5 h6 h7 hp hp0 h8 h9 h10 hgt
    exact purchase_tokens_exceeds_user_limit h1 h2 ⟨h3a, h3b⟩ h4 h5 h6 h7 hp hp0 h8 h9 h10
      (by omega)

theorem C3_per_wallet_cap_witness :
    (({ sale := { c3_sale with tokens_sold := 650, total_raised := 5000000 }
        user_purchase := { tokens_purchased := 650, sol_contributed := 35000000 }
        sol_cost := 5000000 } : PurchaseOk).user_purchase.tokens_purchased =
      c3_up.tokens_purchased + 50 ∧
     ({ sale := { c3_sale with tokens_sold := 650, total_raised := 5000000 }
        user_purchase := { tokens_purchased := 650, sol_contributed := 35000000 }
        sol_cost := 5000000 } : PurchaseOk).user_purchase.tokens_purchased ≤
      c3_sale.max_purchase) ∧
    purchase_tokens c3_sale c3_up 10 demo_feed 500 = .error (.code .ExceedsUserLimit) :=
  ⟨C3_per_wallet_cap.1 c3_sale c3_up 10 demo_feed 50
     { sale := { c3_sale with tokens_sold := 650, total_raised := 5000000 }
       user_purchase := { tokens_purchased := 650, sol_contributed := 35000000 }
       sol_cost := 5000000 } rfl,
   C3_per_wallet_cap.2.2.1 c3_sale c3_up 10 demo_feed 500 10000000000 rfl rfl
     (by decide) (by decide) (by decide) (by decide) (by decide) (by decide) rfl
     (by decide) (by decide) (by decide) (by decide) (by decide)⟩

end IcoTokenSale

namespace IcoTokenSale

/-- A feed whose multiplicative normalization overflows u64. -/
def c4_feed : PriceFeed := { price := 9223372036854775807, exponent := 0 }

/-- C4: at the maximal positive i64 feed price with exponent 0 the
normalization product price * 10^8 exceeds u64.  The claim (and the
programs own convention, used for the checked multiplications of the
cost path) requires this overflow to fail with the `MathOverflow` error
code, but the source multiplies unchecked, so the instruction aborts
with an arithmetic overflow instead: the code diverges from the
specified behaviour.  The last conjunct shows that the checked
multiplication the specification describes would indeed have produced
`MathOverflow` at this input. -/
theorem C4_normalization_overflow_bug :
    (0 : Int) < c4_feed.price ∧ (-8 : Int) ≤ c4_feed.exponent ∧
    U64_MAX < 9223372036854775807 * 10 ^ 8 ∧
    get_sol_usd_price c4_feed = .error .overflowAbort ∧
    get_sol_usd_price c4_feed ≠ .error (.code .MathOverflow) ∧
    ok_or (checked_mul 9223372036854775807 (10 ^ 8)) ErrorCode.MathOverflow =
      .error (.code .MathOverflow) := by
  refine ⟨by norm_num [c4_feed], by norm_num [c4_feed], by norm_num [U64_MAX], rfl, ?_, rfl⟩
  intro h
  rw [show get_sol_usd_price c4_feed = .error .overflowAbort from rfl] at h
  exact ProgErr.noConfusion (Except.error.inj h)

/-- Full case analysis of the normalization arithmetic: the multiplicative
branch when power and product fit in u64, the truncating-division branch
when the divisor power fits, and the abort when the product does not
fit. -/
theorem get_sol_usd_price_branches :
    (∀ feed : PriceFeed, 0 < feed.price → -8 ≤ feed.exponent →
        10 ^ (feed.exponent + 8).toNat ≤ U64_MAX →
        feed.price.toNat * 10 ^ (feed.exponent + 8).toNat ≤ U64_MAX →
        get_sol_usd_price feed = .ok (feed.price.toNat * 10 ^ (feed.exponent + 8).toNat))
    ∧ (∀ feed : PriceFeed, 0 < feed.price → feed.exponent < -8 →
        10 ^ (-feed.exponent - 8).toNat ≤ U64_MAX →
        get_sol_usd_price feed = .ok (feed.price.toNat / 10 ^ (-feed.exponent - 8).toNat))
    ∧ (∀ feed : PriceFeed, 0 < feed.price → -8 ≤ feed.exponent →
        U64_MAX < feed.price.toNat * 10 ^ (feed.exponent + 8).toNat →
        get_sol_usd_price feed = .error .overflowAbort) := by
  refine ⟨?_, ?_, ?_⟩
  · intro feed h0 he hpow hmul
    unfold get_sol_usd_price
    rw [require_pos h0, ok_bind, if_pos he, u64_pow_ok hpow, ok_bind, u64_mul_ok hmul]
  · intro feed h0 he hpow
    unfold get_sol_usd_price
    rw [require_pos h0, ok_bind, if_neg (not_le.mpr he), u64_pow_ok hpow, ok_bind]
  · intro feed h0 he hmul
    unfold get_sol_usd_price
    rw [require_pos h0, ok_bind, if_pos he]
    by_cases hpow : 10 ^ (feed.exponent + 8).toNat ≤ U64_MAX
    · rw [u64_pow_ok hpow, ok_bind, u64_mul_err (by omega)]
    · rw [u64_pow_err hpow, error_bind]

/-- C5 counterexample: every validation of `initialize_sale` holds (price,
max_tokens, purchase limits, duration, max_age), yet the instruction
aborts, because the unchecked i64 addition now + sale_duration for
`end_time` overflows; so success is not equivalent to the five
validations. -/
theorem C5_counterexample :
    (0 < (100 : Nat) ∧ 0 < (1000 : Nat) ∧ 0 < (1 : Nat) ∧ (1 : Nat) ≤ 10 ∧
      0 < (9223372036854775807 : Int) ∧ 0 < (3600 : Nat) ∧ (3600 : Nat) ≤ 3600) ∧
    initialize_sale 100 1000 1 10 9223372036854775807 3600 1700000000 =
      .error .overflowAbort :=
  ⟨by norm_num, rfl⟩

/-- C5 amended: `initialize_sale` succeeds exactly when the five
validations hold and now + sale_duration fits in i64 (the end-time
addition is unchecked and aborts on overflow); on success the created
sale has start_time = now, end_time = now + sale_duration, zero counters,
is_active and not paused; each validation failure yields its respective
error code in source order. -/
theorem C5_amended_init_sale :
    ∀ (price mt mn mx : Nat) (dur : Int) (ma : Nat) (now : Int),
      ((∃ s, initialize_sale price mt mn mx dur ma now = .ok s) ↔
        0 < price ∧ 0 < mt ∧ 0 < mn ∧ mn ≤ mx ∧ 0 < dur ∧ 0 < ma ∧ ma ≤ 3600 ∧
        I64_MIN ≤ now + dur ∧ now + dur ≤ I64_MAX)
      ∧ (∀ s, initialize_sale price mt mn mx dur ma now = .ok s →
          s.start_time = now ∧ s.end_time = now + dur ∧ s.tokens_sold = 0 ∧
          s.total_raised = 0 ∧ s.is_active = true ∧ s.is_paused = false)
      ∧ (¬ 0 < price →
          initialize_sale price mt mn mx dur ma now = .error (.code .InvalidPrice))
      ∧ (0 < price → ¬ 0 < mt →
          initialize_sale price mt mn mx dur ma now = .error (.code .InvalidAmount))
      ∧ (0 < price → 0 < mt → ¬ (0 < mn ∧ mn ≤ mx) →
          initialize_sale price mt mn mx dur ma now = .error (.code .InvalidPurchaseLimit))
      ∧ (0 < price → 0 < mt → (0 < mn ∧ mn ≤ mx) → ¬ 0 < dur →
          initialize_sale price mt mn mx dur ma now = .error (.code .InvalidDuration))
      ∧ (0 < price → 0 < mt → (0 < mn ∧ mn ≤ mx) → 0 < dur → ¬ (0 < ma ∧ ma ≤ 3600) →
          initialize_sale price mt mn mx dur ma now = .error (.code .InvalidMaxAge)) := by
  intro price mt mn mx dur ma now
  refine ⟨⟨?_, ?_⟩, ?_, ?_, ?_, ?_, ?_, ?_⟩
  · rintro ⟨s, hs⟩
    obtain ⟨c1, c2, c3a, c3b, c4, c5a, c5b, c6a, c6b, _⟩ := initialize_sale_ok hs
    exact ⟨c1, c2, c3a, c3b, c4, c5a, c5b, c6a, c6b⟩
  · rintro ⟨c1, c2, c3a, c3b, c4, c5a, c5b, c6a, c6b⟩
    exact ⟨_, initialize_sale_intro c1 c2 ⟨c3a, c3b⟩ c4 ⟨c5a, c5b⟩ ⟨c6a, c6b⟩⟩
  · intro s hs
    obtain ⟨_, _, _, _, _, _, _, _, _, h⟩ := initialize_sale_ok hs
    rw [h]
    exact ⟨rfl, rfl, rfl, rfl, rfl, rfl⟩
  · exact fun hc => initialize_sale_invalid_price hc
  · exact fun c1 hc => initialize_sale_invalid_amount c1 hc
  · exact fun c1 c2 hc => initialize_sale_invalid_limits c1 c2 hc
  · exact fun c1 c2 c3 hc => initialize_sale_invalid_duration c1 c2 c3 hc
  · exact fun c1 c2 c3 c4 hc => initialize_sale_invalid_max_age c1 c2 c3 c4 hc

theorem C5_amended_init_sale_witness :
    (∃ s, initialize_sale 100000000 1000000 10 1000 86400 60 0 = .ok s) ∧
    (demo_sale.start_time = (0 : Int) ∧ demo_sale.end_time = (0 : Int) + 86400 ∧
      demo_sale.tokens_sold = 0 ∧ demo_sale.total_raised = 0 ∧
      demo_sale.is_active = true ∧ demo_sale.is_paused = false) ∧
    initialize_sale 0 1000000 10 1000 86400 60 0 = .error (.code .InvalidPrice) ∧
    initialize_sale 100000000 1000000 10 1000 86400 3601 0 = .error (.code .InvalidMaxAge) :=
  ⟨((C5_amended_init_sale 100000000 1000000 10 1000 86400 60 0).1).mpr
      ⟨by decide, by decide, by decide, by decide, by decide, by decide, by decide,
       by decide, by decide⟩,
   (C5_amended_init_sale 100000000 1000000 10 1000 86400 60 0).2.1 demo_sale rfl,
   (C5_amended_init_sale 0 1000000 10 1000 86400 60 0).2.2.1 (by decide),
   (C5_amended_init_sale 100000000 1000000 10 1000 86400 3601 0).2.2.2.2.2.2 (by decide)
     (by decide) (by decide) (by decide) (by decide)⟩

end IcoTokenSale

namespace IcoTokenSale

/-- A freshly initialized sale at one USD-unit per token with a huge cap. -/
def c6_sale0 : Sale :=
  { token_price_usd := 1, max_tokens := 20000000000, min_purchase := 1,
    max_purchase := 10000000000, tokens_sold := 0, total_raised := 0, start_time := 0,
    end_time := 86400, max_price_age := 3600, is_active := true, is_paused := false }

/-- A feed normalizing to the minimal positive price 1. -/
def c6_feed : PriceFeed := { price := 1, exponent := -8 }

/-- The sale after one successful 10^10-token purchase costing 10^19
lamports. -/
def c6_sale1 : Sale :=
  { c6_sale0 with tokens_sold := 10000000000, total_raised := 10000000000000000000 }

/-- C6 counterexample: after one successful purchase that raised 10^19
lamports from a freshly initialized sale, a second buyer passes every
check but the unchecked total_raised += sol_cost addition overflows u64
(10^19 + 10^19 > 2^64 - 1), aborting the purchase — so it is false that
the lamport-counter additions cannot overflow under the program
invariants. -/
theorem C6_counterexample :
    initialize_sale 1 20000000000 1 10000000000 86400 3600 0 = .ok c6_sale0 ∧
    purchase_tokens c6_sale0 demo_up0 1 c6_feed 10000000000 =
      .ok { sale := c6_sale1
            user_purchase := { tokens_purchased := 10000000000
                               sol_contributed := 10000000000000000000 }
            sol_cost := 10000000000000000000 } ∧
    U64_MAX < c6_sale1.total_raised + 10000000000000000000 ∧
    purchase_tokens c6_sale1 demo_up0 2 c6_feed 10000000000 = .error .overflowAbort :=
  ⟨rfl, rfl, by decide, rfl⟩

/-- C6 amended: the four counter updates use unchecked u64 addition; on
every successful purchase each counter is the exact mathematical sum and
fits u64, with the two token counters additionally bounded by the
previously checked caps — but the lamport counters (total_raised,
sol_contributed) can overflow u64 across multiple successful purchases,
in which case the overflowing purchase aborts. -/
theorem C6_amended_counter_updates :
    ∀ (sale : Sale) (up : UserPurchase) (now : Int) (feed : PriceFeed) (amt : Nat)
      (r : PurchaseOk),
      purchase_tokens sale up now feed amt = .ok r →
      r.sale.tokens_sold = sale.tokens_sold + amt ∧ r.sale.tokens_sold ≤ sale.max_tokens ∧
      r.user_purchase.tokens_purchased = up.tokens_purchased + amt ∧
      r.user_purchase.tokens_purchased ≤ sale.max_purchase ∧
      r.sale.total_raised = sale.total_raised + r.sol_cost ∧ r.sale.total_raised ≤ U64_MAX ∧
      r.user_purchase.sol_contributed = up.sol_contributed + r.sol_cost ∧
      r.user_purchase.sol_contributed ≤ U64_MAX := by
  intro sale up now feed amt r h
  obtain ⟨_, _, _, _, _, _, _, hcap, p, _, _, _, _, _, h11, h12, h13, hrr⟩ :=
    purchase_tokens_ok h
  subst hrr
  exact ⟨rfl, hcap, rfl, h11, rfl, h12, rfl, h13⟩

theorem C6_amended_counter_updates_witness :
    ({ sale := { demo_sale with tokens_sold := 50, total_raised := 500000000 }
       user_purchase := { tokens_purchased := 50, sol_contributed := 500000000 }
       sol_cost := 500000000 } : PurchaseOk).sale.tokens_sold =
        demo_sale.tokens_sold + 50 ∧
    ({ sale := { demo_sale with tokens_sold := 50, total_raised := 500000000 }
       user_purchase := { tokens_purchased := 50, sol_contributed := 500000000 }
       sol_cost := 500000000 } : PurchaseOk).sale.tokens_sold ≤ demo_sale.max_tokens ∧
    ({ sale := { demo_sale with tokens_sold := 50, total_raised := 500000000 }
       user_purchase := { tokens_purchased := 50, sol_contributed := 500000000 }
       sol_cost := 500000000 } : PurchaseOk).user_purchase.tokens_purchased =
        demo_up0.tokens_purchased + 50 ∧
    ({ sale := { demo_sale with tokens_sold := 50, total_raised := 500000000 }
       user_purchase := { tokens_purchased := 50, sol_contributed := 500000000 }
       sol_cost := 500000000 } : PurchaseOk).user_purchase.tokens_purchased ≤
        demo_sale.max_purchase ∧
    ({ sale := { demo_sale with tokens_sold := 50, total_raised := 500000000 }
       user_purchase := { tokens_purchased := 50, sol_contributed := 500000000 }
       sol_cost := 500000000 } : PurchaseOk).sale.total_raised =
        demo_sale.total_raised +
          ({ sale := { demo_sale with tokens_sold := 50, total_raised := 500000000 }
             user_purchase := { tokens_purchased := 50, sol_contributed := 500000000 }
             sol_cost := 500000000 } : PurchaseOk).sol_cost ∧
    ({ sale := { demo_sale with tokens_sold := 50, total_raised := 500000000 }
       user_purchase := { tokens_purchased := 50, sol_contributed := 500000000 }
       sol_cost := 500000000 } : PurchaseOk).sale.total_raised ≤ U64_MAX ∧
    ({ sale := { demo_sale with tokens_sold := 50, total_raised := 500000000 }
       user_purchase := { tokens_purchased := 50, sol_contributed := 500000000 }
       sol_cost := 500000000 } : PurchaseOk).user_purchase.sol_contributed =
        demo_up0.sol_contributed +
          ({ sale := { demo_sale with tokens_sold := 50, total_raised := 500000000 }
             user_purchase := { tokens_purchased := 50, sol_contributed := 500000000 }
             sol_cost := 500000000 } : PurchaseOk).sol_cost ∧
    ({ sale := { demo_sale with tokens_sold := 50, total_raised := 500000000 }
       user_purchase := { tokens_purchased := 50, sol_contributed := 500000000 }
       sol_cost := 500000000 } : PurchaseOk).user_purchase.sol_contributed ≤ U64_MAX :=
  C6_amended_counter_updates demo_sale demo_up0 10 demo_feed 50
    { sale := { demo_sale with tokens_sold := 50, total_raised := 500000000 }
      user_purchase := { tokens_purchased := 50, sol_contributed := 500000000 }
      sol_cost := 500000000 } rfl

/-- C7: update_sale_params fails with SaleAlreadyStarted for every
invocation at now ≥ start_time (including now = start_time), and on
success (necessarily at now < start_time) the updated sale still
satisfies min_purchase ≤ max_purchase, re-asserted after the optional
field updates. -/
theorem C7_update_gate :
    (∀ (sale : Sale) (now : Int) (o1 o2 o3 o4 o5 : Option Nat),
        sale.start_time ≤ now →
        update_sale_params sale now o1 o2 o3 o4 o5 = .error (.code .SaleAlreadyStarted))
    ∧ (∀ (sale s2 : Sale) (now : Int) (o1 o2 o3 o4 o5 : Option Nat),
        update_sale_params sale now o1 o2 o3 o4 o5 = .ok s2 →
        now < sale.start_time ∧ s2.min_purchase ≤ s2.max_purchase) := by
  constructor
  · intro sale now o1 o2 o3 o4 o5 h
    exact update_sale_params_started h
  · intro sale s2 now o1 o2 o3 o4 o5 h
    obtain ⟨h0, _, _, _, hmm⟩ := update_sale_params_ok h
    exact ⟨h0, hmm⟩

theorem C7_update_gate_witness :
    update_sale_params demo_sale 0 (some 5) none none none none =
      .error (.code .SaleAlreadyStarted) ∧
    ((-1 : Int) < demo_sale.start_time ∧
      ({ demo_sale with token_price_usd := 5 } : Sale).min_purchase ≤
        ({ demo_sale with token_price_usd := 5 } : Sale).max_purchase) :=
  ⟨C7_update_gate.1 demo_sale 0 (some 5) none none none none (by decide),
   C7_update_gate.2 demo_sale { demo_sale with token_price_usd := 5 } (-1)
     (some 5) none none none none rfl⟩

/-- The example sale after closure. -/
def c8_sale : Sale := { demo_sale with is_active := false }

/-- C8: withdraw_remaining_tokens fails with SaleStillActive exactly when
the sale is active and now ≤ end_time; otherwise it succeeds, draining
the whole vault, performing no transfer when the balance is zero and
emitting the (possibly zero) amount. -/
theorem C8_withdraw_gate :
    (∀ (sale : Sale) (now : Int) (vault : Nat),
        withdraw_remaining_tokens sale now vault = .error (.code .SaleStillActive) ↔
          sale.is_active = true ∧ now ≤ sale.end_time)
    ∧ (∀ (sale : Sale) (now : Int) (vault : Nat),
        sale.is_active = false ∨ sale.end_time < now →
        withdraw_remaining_tokens sale now vault =
          .ok { vault := 0
                transfer_amount := if 0 < vault then some vault else none
                event_amount := vault }) := by
  constructor
  · intro sale now vault
    constructor
    · intro h
      by_cases hb : sale.is_active = true
      · refine ⟨hb, ?_⟩
        by_contra hlt
        push_neg at hlt
        rw [withdraw_ok (Or.inr hlt)] at h
        exact Except.noConfusion h
      · rw [withdraw_ok (Or.inl (by simpa using hb))] at h
        exact Except.noConfusion h
    · rintro ⟨ha, ht⟩
      exact withdraw_still_active ha ht
  · intro sale now vault h
    exact withdraw_ok h

theorem C8_withdraw_gate_witness :
    (withdraw_remaining_tokens demo_sale 100 500 = .error (.code .SaleStillActive) ↔
      demo_sale.is_active = true ∧ (100 : Int) ≤ demo_sale.end_time) ∧
    withdraw_remaining_tokens c8_sale 100 500 =
      .ok { vault := 0, transfer_amount := some 500, event_amount := 500 } ∧
    withdraw_remaining_tokens c8_sale 100 0 =
      .ok { vault := 0, transfer_amount := none, event_amount := 0 } :=
  ⟨C8_withdraw_gate.1 demo_sale 100 500,
   C8_withdraw_gate.2 c8_sale 100 500 (Or.inl rfl),
   C8_withdraw_gate.2 c8_sale 100 0 (Or.inl rfl)⟩

/-- C9: end_sale always succeeds and clears is_active; no instruction ever
sets is_active back to true, so after an end_sale every later purchase —
after any interleaving of further instructions at any times — fails with
SaleInactive at the first guard. -/
theorem C9_purchase_after_end :
    ∀ (c : Chain) (t : Int) (tr : List (Int × Instr)) (t2 : Int) (b : Nat)
      (feed : PriceFeed) (amt : Nat),
      (run_trace (run_instr c t Instr.endSale) tr).sale.is_active = false ∧
      exec_instr (run_trace (run_instr c t Instr.endSale) tr) t2 (Instr.purchase b feed amt) =
        .error (.code .SaleInactive) := by
  intro c t tr t2 b feed amt
  have hinact : (run_trace (run_instr c t Instr.endSale) tr).sale.is_active = false :=
    run_trace_inactive (run_instr_end_sale c t)
  refine ⟨hinact, ?_⟩
  rw [exec_instr_purchase, purchase_tokens_inactive hinact, error_bind]

/-- A feed whose exponent makes the divisor power 10^20 overflow u64. -/
def c10_feed : PriceFeed := { price := 1, exponent := -28 }

/-- C10 counterexample: the reading price 1, exponent -28 satisfies the
claim hypotheses (p > 0, e < -8, p < 10^(-e-8)), but the normalization
does not truncate to 0: the unchecked 10^20 power computation overflows
u64 and the oracle read aborts, and a purchase with this reading aborts
likewise instead of failing with MathOverflow from the guarded
division. -/
theorem C10_counterexample :
    (0 : Int) < c10_feed.price ∧ c10_feed.exponent < -8 ∧
    c10_feed.price.toNat < 10 ^ 20 ∧
    get_sol_usd_price c10_feed = .error .overflowAbort ∧
    (∀ v, get_sol_usd_price c10_feed ≠ .ok v) ∧
    purchase_tokens demo_sale demo_up0 10 c10_feed 50 = .error .overflowAbort := by
  refine ⟨by decide, by decide, by decide, rfl, ?_, rfl⟩
  intro v h
  rw [show get_sol_usd_price c10_feed = .error .overflowAbort from rfl] at h
  exact Except.noConfusion h

/-- C10 amended: for every oracle reading with p > 0 and -28 < e < -8 such
that p < 10^(-e-8) (the divisor power then fits u64), the normalized
price truncates to exactly 0, and a purchase using that reading with all
earlier guards passing fails with MathOverflow (checked_div of a zero
divisor returning none) rather than dividing by zero or succeeding; for
e ≤ -28 the unchecked power overflows and the instruction aborts
instead. -/
theorem C10_amended_zero_price :
    ∀ (sale : Sale) (up : UserPurchase) (now : Int) (feed : PriceFeed) (amt : Nat),
      0 < feed.price → -28 < feed.exponent → feed.exponent < -8 →
      feed.price.toNat < 10 ^ (-feed.exponent - 8).toNat →
      get_sol_usd_price feed = .ok 0 ∧
      (sale.is_active = true → sale.is_paused = false →
        sale.start_time ≤ now → now ≤ sale.end_time →
        sale.min_purchase ≤ amt → amt ≤ sale.max_purchase →
        sale.tokens_sold + amt ≤ U64_MAX → sale.tokens_sold + amt ≤ sale.max_tokens →
        purchase_tokens sale up now feed amt = .error (.code .MathOverflow)) := by
  intro sale up now feed amt h0 hlo hhi hlt
  have hk : (-feed.exponent - 8).toNat ≤ 19 := by omega
  have hpow : (10 : Nat) ^ (-feed.exponent - 8).toNat ≤ U64_MAX := by
    calc (10 : Nat) ^ (-feed.exponent - 8).toNat
        ≤ 10 ^ 19 := Nat.pow_le_pow_right (by norm_num) hk
      _ ≤ U64_MAX := by norm_num [U64_MAX]
  have hzero : get_sol_usd_price feed = .ok 0 := by
    unfold get_sol_usd_price
    rw [require_pos h0, ok_bind, if_neg (not_le.mpr hhi), u64_pow_ok hpow, ok_bind,
      Nat.div_eq_of_lt hlt]
  exact ⟨hzero, fun h1 h2 h3a h3b h4 h5 h6 h7 =>
    purchase_tokens_zero_price h1 h2 ⟨h3a, h3b⟩ h4 h5 h6 h7 hzero⟩

theorem C10_amended_zero_price_witness :
    get_sol_usd_price { price := 5, exponent := -10 } = .ok 0 ∧
    purchase_tokens demo_sale demo_up0 10 { price := 5, exponent := -10 } 50 =
      .error (.code .MathOverflow) := by
  have h := C10_amended_zero_price demo_sale demo_up0 10 { price := 5, exponent := -10 } 50
    (by decide) (by decide) (by decide) (by decide)
  exact ⟨h.1, h.2 rfl rfl (by decide) (by decide) (by decide) (by decide) (by decide)
    (by decide)⟩

end IcoTokenSale
